import Mathlib

/-!
Shallow embedding of the ODFW Orca Guardian regulator agent
(`src/mesh_on_cloud_run/src/regulator_agent/main.py`) and proofs of the
specified properties of its core logic: the proximity analyzer
(`analyze_proximity_risk`), the summarization delegate
(`get_summary_and_action`) and the orchestrator endpoint (`check_risk`).

Modelling conventions:
* JSON payload dictionaries become Lean structures.  A field read with
  `dict.get(key, default)` in Python is modelled as an `Option` field read
  with `Option.getD`, so a missing key is representable (`none`).
* Latitude/longitude floats become real numbers `ℝ`; `pandas.round` to zero
  decimals becomes round-half-to-even into `ℤ`.
* The outcome of each outbound HTTP call is an explicit inductive value
  passed in as a parameter; the Python `raise`/`except` control flow becomes
  `Except` values and total functions.
-/

namespace OrcaGuardian

/-- A geographic point: the `(lat, lon)` pair fed to `great_circle`
(GeoPandas stores `points_from_xy(lon, lat)`, and `calculate_distance`
reads them back as `(geometry.y, geometry.x) = (lat, lon)`). -/
structure GeoPoint where
  lat : ℝ
  lon : ℝ

/-- Degrees to radians, as done by the distance library before applying trig. -/
noncomputable def radians (deg : ℝ) : ℝ := deg * Real.pi / 180

/-- Two-argument arctangent: the angle of the point `(x, y)` in `(-π, π]`,
modelled as the complex argument of `x + y·i`. -/
noncomputable def atan2 (y x : ℝ) : ℝ := Complex.arg ⟨x, y⟩

/-- Modelled from the spec: the DistanceEngine — `geopy.distance.great_circle`
is an external library, not part of this repository.  Per spec §4.1 it is the
great-circle distance on a mean Earth radius; we model the spherical
arctangent form used by geopy (mean radius 6371.009 km), converted to meters
as `calculate_distance` does via `.meters`. -/
noncomputable def great_circle_meters (a b : GeoPoint) : ℝ :=
  let lat1 := radians a.lat
  let lng1 := radians a.lon
  let lat2 := radians b.lat
  let lng2 := radians b.lon
  let sin_lat1 := Real.sin lat1
  let cos_lat1 := Real.cos lat1
  let sin_lat2 := Real.sin lat2
  let cos_lat2 := Real.cos lat2
  let delta_lng := lng2 - lng1
  let cos_delta_lng := Real.cos delta_lng
  let sin_delta_lng := Real.sin delta_lng
  let d := atan2
    (Real.sqrt ((cos_lat2 * sin_delta_lng) ^ 2 +
      (cos_lat1 * sin_lat2 - sin_lat1 * cos_lat2 * cos_delta_lng) ^ 2))
    (sin_lat1 * sin_lat2 + cos_lat1 * cos_lat2 * cos_delta_lng)
  1000 * (6371.009 * d)

/-- Round-half-to-even into the integers: the rounding mode of
`DataFrame.round({'distance_meters': 0})` (numpy banker's rounding). -/
noncomputable def roundHalfEven (x : ℝ) : ℤ :=
  if x - ⌊x⌋ < 1 / 2 then ⌊x⌋
  else if 1 / 2 < x - ⌊x⌋ then ⌈x⌉
  else if Even ⌊x⌋ then ⌊x⌋ else ⌈x⌉

/-- One record of the biologist agent's `sightings` list:
`{"id": ..., "type": ..., "lat": ..., "lon": ...}`. -/
structure Sighting where
  id : String
  type : String
  lat : ℝ
  lon : ℝ

/-- One record of the vessel agent's `vessels` list:
`{"id": ..., "class": ..., "lat": ..., "lon": ...}`. -/
structure Vessel where
  id : String
  «class» : String
  lat : ℝ
  lon : ℝ

/-- One output record of `analyze_proximity_risk` after the rename and
projection steps; `distance_meters` has been rounded to a whole meter. -/
structure RiskEvent where
  vessel_id : String
  vessel_class : String
  whale_sighting_id : String
  distance_meters : ℤ
deriving DecidableEq

/-- The biologist agent's reply payload.  `sightings` is an `Option` because
`analyze_proximity_risk` reads it with `whale_data.get("sightings", [])`, so
the key may be absent.  The fields the regulator never reads
(`zone`, `duration_sec`, `sightings_count`) are omitted; they are only passed
through inside `raw_data`. -/
structure WhaleData where
  source : String
  sightings : Option (List Sighting)

/-- The vessel agent's reply payload; `vessels` is read with
`vessel_data.get("vessels", [])`. -/
structure VesselData where
  source : String
  vessels : Option (List Vessel)

/-- The per-pair distance of `analyze_proximity_risk` step 4: great-circle
distance in meters between the whale geometry and the vessel geometry. -/
noncomputable def calculate_distance (w : Sighting) (v : Vessel) : ℝ :=
  great_circle_meters ⟨w.lat, w.lon⟩ ⟨v.lat, v.lon⟩

open Classical in
/-- `analyze_proximity_risk`, parameterized by the pairwise distance function
(the actual function uses `calculate_distance`; the parameter lets theorems
express that a code path never consults the distance engine).  Steps mirror
the source: read the two lists with an empty default, short-circuit when
either is empty, build the cross product (outer loop whales, inner loop
vessels — the row order of `merge(how="cross")`), compute a distance per
pair, filter by the 1852 m threshold, then rename/project/round. -/
noncomputable def analyzeWith (dist : Sighting → Vessel → ℝ)
    (whale_data : WhaleData) (vessel_data : VesselData) : List RiskEvent :=
  let whale_sightings := whale_data.sightings.getD []
  let vessel_tracks := vessel_data.vessels.getD []
  if whale_sightings.isEmpty || vessel_tracks.isEmpty then []
  else
    let all_pairs := whale_sightings.flatMap fun w => vessel_tracks.map fun v => (w, v)
    let with_distance := all_pairs.map fun p => (p, dist p.1 p.2)
    let risk_events := with_distance.filter fun r => r.2 ≤ 1852
    risk_events.map fun r =>
      { vessel_id := r.1.2.id
        vessel_class := r.1.2.«class»
        whale_sighting_id := r.1.1.id
        distance_meters := roundHalfEven r.2 }

/-- `analyze_proximity_risk` as in the source: `analyzeWith` at the real
great-circle distance. -/
noncomputable def analyze_proximity_risk (whale_data : WhaleData)
    (vessel_data : VesselData) : List RiskEvent :=
  analyzeWith calculate_distance whale_data vessel_data

open Classical in
/-- The spec's description of the analyzer's output order (§4.2): a nested
loop, outer over sightings, inner over vessels, keeping each pair within the
threshold.  Used to state the ordering claim against `analyze_proximity_risk`. -/
noncomputable def analyze_spec_order (dist : Sighting → Vessel → ℝ)
    (whale_data : WhaleData) (vessel_data : VesselData) : List RiskEvent :=
  let whale_sightings := whale_data.sightings.getD []
  let vessel_tracks := vessel_data.vessels.getD []
  whale_sightings.flatMap fun w =>
    (vessel_tracks.filter fun v => dist w v ≤ 1852).map fun v =>
      { vessel_id := v.id
        vessel_class := v.«class»
        whale_sighting_id := w.id
        distance_meters := roundHalfEven (dist w v) }

/-- The structured summary object: the three keys the prompt requests and the
fallback paths produce (`summary`, `risk_level`, `recommended_action`). -/
structure Summary where
  summary : String
  risk_level : String
  recommended_action : String
deriving DecidableEq

/-- Outcome of one call to the LLM proxy as observed inside
`get_summary_and_action`'s `try` block: either a parsed 2xx JSON body, or one
of the failure modes the catch-all `except Exception` absorbs — a non-2xx
status (raised by `raise_for_status`), a transport failure (the `post`
itself raised), or a 2xx body that `response.json()` cannot parse.  Each
failure carries `str(e)`. -/
inductive LLMOutcome where
  | ok (body : Summary)
  | httpStatusError (msg : String)
  | requestError (msg : String)
  | parseError (msg : String)

/-- `true` exactly on the three failure constructors. -/
def LLMOutcome.is_failure : LLMOutcome → Bool
  | .ok _ => false
  | .httpStatusError _ => true
  | .requestError _ => true
  | .parseError _ => true

/-- The `str(e)` of a failure outcome (empty for a success). -/
def LLMOutcome.error_text : LLMOutcome → String
  | .ok _ => ""
  | .httpStatusError msg => msg
  | .requestError msg => msg
  | .parseError msg => msg

/-- The prompt f-string of `get_summary_and_action`, abbreviated to its
data dependencies: the fixed instruction text with the zone name and the
rendered risk-event list interpolated. -/
def mk_prompt (risk_events : List RiskEvent) (zone : String) : String :=
  "You are an expert risk assessment analyst for the Oregon Department of " ++
  "Fish and Wildlife (ODFW). ... events between vessels and endangered " ++
  "Southern Resident Killer Whales (SRKWs) in the '" ++ zone ++ "' zone. " ++
  "Here is the structured data of the risk events: " ++
  String.intercalate "; " (risk_events.map fun e =>
    e.vessel_id ++ "," ++ e.vessel_class ++ "," ++ e.whale_sighting_id ++
    "," ++ toString e.distance_meters) ++
  " Based on this data, provide a JSON object with three keys ..."

/-- `get_summary_and_action`.  The LLM proxy collaborator is a function from
the prompt to an outcome.  Empty risk list: fixed low-risk summary, the
collaborator is not consulted.  Otherwise the outcome of the call is matched:
a success body is returned as-is, every failure becomes the degraded
`Unknown` summary built from `str(e)` — the function is total, mirroring the
catch-all `except` that never lets the exception escape. -/
def get_summary_and_action (llm : String → LLMOutcome)
    (risk_events : List RiskEvent) (zone : String) : Summary :=
  if risk_events.isEmpty then
    { summary := "No high-risk proximity events were detected."
      risk_level := "Low"
      recommended_action := "No action required. Continue monitoring." }
  else
    match llm (mk_prompt risk_events zone) with
    | .ok body => body
    | e =>
      { summary := "AI summary generaton failed. See raw data."
        risk_level := "Unknown"
        recommended_action := "Investigate AI model error: " ++ e.error_text }

/-- A FastAPI `HTTPException`: status code and detail string. -/
structure HTTPError where
  status_code : ℕ
  detail : String
deriving DecidableEq

/-- Outcome of one `http_client.post` to a data-provider agent, as observed
inside `get_data_from_agent`: a parsed JSON body, a non-2xx reply (carrying
`e.response.text`), or a transport error. -/
inductive AgentOutcome (α : Type) where
  | ok (body : α)
  | httpStatusError (text : String)
  | requestError

/-- `get_data_from_agent`: empty URL → 500; non-2xx reply → 503 with the
response text; transport failure → 504; otherwise the parsed body. -/
def get_data_from_agent {α : Type} (service_url : String)
    (resp : AgentOutcome α) : Except HTTPError α :=
  if service_url = "" then
    .error ⟨500, "Service URL for a dependency is not configured."⟩
  else
    match resp with
    | .ok body => .ok body
    | .httpStatusError text =>
        .error ⟨503, "Downstream service unavailable " ++ text⟩
    | .requestError =>
        .error ⟨504, "Could not connect to downstream service"⟩

/-- The JSON object returned by `check_risk` on success: the zone, the AI
summary, `data.risk_events_found` / `data.risk_events`, and the two raw
upstream payloads. -/
structure RiskResponse where
  zone : String
  ai_summary : Summary
  risk_events_found : ℕ
  risk_events : List RiskEvent
  raw_whale_data : WhaleData
  raw_vessel_data : VesselData

/-- The `/check_risk` endpoint.  The two upstream fetch outcomes and the LLM
collaborator are parameters.  As in the source, both fetches are resolved
(`asyncio.gather(..., return_exceptions=True)` waits for both), then the
result list is scanned in order and the first exception found is re-raised —
the whale fetch's error wins when both fail.  On joint success the analyzer
and the summarizer run and the response object is assembled. -/
noncomputable def check_risk (biologist_url vessel_url : String)
    (whale_resp : AgentOutcome WhaleData) (vessel_resp : AgentOutcome VesselData)
    (llm : String → LLMOutcome) (zone : String) : Except HTTPError RiskResponse :=
  let whale_task := get_data_from_agent biologist_url whale_resp
  let vessel_task := get_data_from_agent vessel_url vessel_resp
  match whale_task, vessel_task with
  | .error e, _ => .error e
  | .ok _, .error e => .error e
  | .ok whale_data, .ok vessel_data =>
    let risk_events := analyze_proximity_risk whale_data vessel_data
    let ai_summary := get_summary_and_action llm risk_events zone
    .ok
      { zone := zone
        ai_summary := ai_summary
        risk_events_found := risk_events.length
        risk_events := risk_events
        raw_whale_data := whale_data
        raw_vessel_data := vessel_data }

/-! ### Helper lemmas -/

theorem analyzeWith_empty (dist : Sighting → Vessel → ℝ) (wd : WhaleData)
    (vd : VesselData)
    (h : wd.sightings.getD [] = [] ∨ vd.vessels.getD [] = []) :
    analyzeWith dist wd vd = [] := by
  unfold analyzeWith
  rcases h with h | h <;> simp [h]

theorem analyzeWith_eq_spec_order (dist : Sighting → Vessel → ℝ)
    (wd : WhaleData) (vd : VesselData) :
    analyzeWith dist wd vd = analyze_spec_order dist wd vd := by
  unfold analyzeWith analyze_spec_order
  by_cases hw : wd.sightings.getD [] = []
  · simp [hw]
  · by_cases hv : vd.vessels.getD [] = []
    · simp [hv]
    · simp only [List.isEmpty_iff, hw, hv, if_neg, Bool.or_eq_true,
        decide_eq_true_eq, or_self, List.map_flatMap, List.filter_flatMap,
        List.map_map, List.filter_map]
      rfl

theorem roundHalfEven_le_ceil (x : ℝ) : roundHalfEven x ≤ ⌈x⌉ := by
  unfold roundHalfEven
  split_ifs <;> first | exact Int.floor_le_ceil x | exact le_refl _

theorem roundHalfEven_le_of_le {x : ℝ} {n : ℤ} (h : x ≤ (n : ℝ)) :
    roundHalfEven x ≤ n :=
  le_trans (roundHalfEven_le_ceil x) (Int.ceil_le.mpr h)

theorem length_flatMap_le {α β : Type} (ws : List α) (f : α → List β) (n : ℕ)
    (h : ∀ w, (f w).length ≤ n) : (ws.flatMap f).length ≤ ws.length * n := by
  induction ws with
  | nil => simp
  | cons w ws ih =>
    simp only [List.flatMap_cons, List.length_append, List.length_cons]
    calc (f w).length + (ws.flatMap f).length ≤ n + ws.length * n :=
          Nat.add_le_add (h w) ih
      _ = (ws.length + 1) * n := by ring

theorem analyzeWith_length_le (dist : Sighting → Vessel → ℝ)
    (wd : WhaleData) (vd : VesselData) :
    (analyzeWith dist wd vd).length ≤
      (wd.sightings.getD []).length * (vd.vessels.getD []).length := by
  rw [analyzeWith_eq_spec_order]
  unfold analyze_spec_order
  apply length_flatMap_le
  intro w
  calc (((vd.vessels.getD []).filter fun v => dist w v ≤ 1852).map fun v =>
        ({ vessel_id := v.id, vessel_class := v.«class»,
           whale_sighting_id := w.id,
           distance_meters := roundHalfEven (dist w v) } : RiskEvent)).length
      = ((vd.vessels.getD []).filter fun v => dist w v ≤ 1852).length :=
        List.length_map _ _
    _ ≤ (vd.vessels.getD []).length := List.length_filter_le _ _

theorem analyzeWith_mem_dist_le (dist : Sighting → Vessel → ℝ)
    (wd : WhaleData) (vd : VesselData) (e : RiskEvent)
    (he : e ∈ analyzeWith dist wd vd) : e.distance_meters ≤ 1852 := by
  rw [analyzeWith_eq_spec_order] at he
  unfold analyze_spec_order at he
  simp only [List.mem_flatMap, List.mem_map, List.mem_filter,
    decide_eq_true_eq] at he
  obtain ⟨w, _, v, ⟨_, hd⟩, rfl⟩ := he
  exact roundHalfEven_le_of_le (by exact_mod_cast hd)

theorem arc_swap (t1 c1 t2 c2 sd cd : ℝ) (h1 : t1 ^ 2 + c1 ^ 2 = 1)
    (h2 : t2 ^ 2 + c2 ^ 2 = 1) (hc : sd ^ 2 + cd ^ 2 = 1) :
    1000 * (6371.009 * atan2
      (Real.sqrt ((c2 * sd) ^ 2 + (c1 * t2 - t1 * c2 * cd) ^ 2))
      (t1 * t2 + c1 * c2 * cd)) =
    1000 * (6371.009 * atan2
      (Real.sqrt ((c1 * -sd) ^ 2 + (c2 * t1 - t2 * c1 * cd) ^ 2))
      (t2 * t1 + c2 * c1 * cd)) := by
  have hN : (c2 * sd) ^ 2 + (c1 * t2 - t1 * c2 * cd) ^ 2 =
      (c1 * -sd) ^ 2 + (c2 * t1 - t2 * c1 * cd) ^ 2 := by
    linear_combination (c2 ^ 2 - c1 ^ 2) * hc + (1 - cd ^ 2) * c1 ^ 2 * h2 -
      (1 - cd ^ 2) * c2 ^ 2 * h1
  have hX : t1 * t2 + c1 * c2 * cd = t2 * t1 + c2 * c1 * cd := by ring
  rw [hN, hX]

theorem great_circle_meters_symm (a b : GeoPoint) :
    great_circle_meters a b = great_circle_meters b a := by
  simp only [great_circle_meters]
  have hg : radians a.lon - radians b.lon =
      -(radians b.lon - radians a.lon) := by ring
  rw [hg, Real.cos_neg, Real.sin_neg]
  exact arc_swap (Real.sin (radians a.lat)) (Real.cos (radians a.lat))
    (Real.sin (radians b.lat)) (Real.cos (radians b.lat))
    (Real.sin (radians b.lon - radians a.lon))
    (Real.cos (radians b.lon - radians a.lon))
    (Real.sin_sq_add_cos_sq _) (Real.sin_sq_add_cos_sq _)
    (Real.sin_sq_add_cos_sq _)

theorem great_circle_meters_self (a : GeoPoint) :
    great_circle_meters a a = 0 := by
  simp only [great_circle_meters]
  rw [sub_self, Real.cos_zero, Real.sin_zero]
  have hx : Real.sin (radians a.lat) * Real.sin (radians a.lat) +
      Real.cos (radians a.lat) * Real.cos (radians a.lat) * 1 = 1 := by
    linear_combination Real.sin_sq_add_cos_sq (radians a.lat)
  have hy : Real.sqrt ((Real.cos (radians a.lat) * 0) ^ 2 +
      (Real.cos (radians a.lat) * Real.sin (radians a.lat) -
       Real.sin (radians a.lat) * Real.cos (radians a.lat) * 1) ^ 2) = 0 := by
    rw [show (Real.cos (radians a.lat) * 0) ^ 2 +
      (Real.cos (radians a.lat) * Real.sin (radians a.lat) -
       Real.sin (radians a.lat) * Real.cos (radians a.lat) * 1) ^ 2 = (0:ℝ)
      by ring]
    exact Real.sqrt_zero
  rw [hy, hx]
  have h0 : atan2 0 1 = 0 := by
    unfold atan2
    have h1 : (⟨1, 0⟩ : ℂ) = 1 := by
      apply Complex.ext <;> simp
    rw [h1, Complex.arg_one]
  rw [h0]
  ring

/-! ### Claims -/

/-- C1: for every non-empty sightings sequence and non-empty vessels
sequence, `analyze_proximity_risk` returns at most |sightings| × |vessels|
risk events, and every returned risk event has `distance_meters ≤ 1852`. -/
theorem claim_C1_analyze_card_and_threshold (wd : WhaleData) (vd : VesselData)
    (_hw : wd.sightings.getD [] ≠ []) (_hv : vd.vessels.getD [] ≠ []) :
    (analyze_proximity_risk wd vd).length ≤
      (wd.sightings.getD []).length * (vd.vessels.getD []).length ∧
    ∀ e ∈ analyze_proximity_risk wd vd, e.distance_meters ≤ 1852 :=
  ⟨analyzeWith_length_le calculate_distance wd vd,
   fun e he => analyzeWith_mem_dist_le calculate_distance wd vd e he⟩

/-- Witness for C1 at a concrete non-empty input (one sighting, one vessel,
both from the mock datasets of the provider agents). -/
theorem claim_C1_witness :
    ((WhaleData.mk "v1 (Human Sightings)"
        (some [⟨"human-1", "SRKW", 45.52, -123.99⟩])).sightings.getD [] ≠ [] ∧
     (VesselData.mk "Mocked AIS Feed"
        (some [⟨"vessel-B", "Recreational", 45.52, -123.991⟩])).vessels.getD [] ≠ []) ∧
    ((analyze_proximity_risk
        (WhaleData.mk "v1 (Human Sightings)"
          (some [⟨"human-1", "SRKW", 45.52, -123.99⟩]))
        (VesselData.mk "Mocked AIS Feed"
          (some [⟨"vessel-B", "Recreational", 45.52, -123.991⟩]))).length ≤
      ((WhaleData.mk "v1 (Human Sightings)"
          (some [⟨"human-1", "SRKW", 45.52, -123.99⟩])).sightings.getD []).length *
      ((VesselData.mk "Mocked AIS Feed"
          (some [⟨"vessel-B", "Recreational", 45.52, -123.991⟩])).vessels.getD []).length ∧
     ∀ e ∈ analyze_proximity_risk
        (WhaleData.mk "v1 (Human Sightings)"
          (some [⟨"human-1", "SRKW", 45.52, -123.99⟩]))
        (VesselData.mk "Mocked AIS Feed"
          (some [⟨"vessel-B", "Recreational", 45.52, -123.991⟩])),
        e.distance_meters ≤ 1852) :=
  ⟨⟨by simp, by simp⟩,
   claim_C1_analyze_card_and_threshold _ _ (by simp) (by simp)⟩

/-- C2: when either input collection is empty, `analyze_proximity_risk`
returns `[]` and the distance engine is never consulted — stated for an
arbitrary distance function `dist`, so the result is independent of it. -/
theorem claim_C2_empty_input_short_circuit (dist : Sighting → Vessel → ℝ)
    (wd : WhaleData) (vd : VesselData)
    (h : wd.sightings.getD [] = [] ∨ vd.vessels.getD [] = []) :
    analyzeWith dist wd vd = [] :=
  analyzeWith_empty dist wd vd h

/-- Witness for C2 at a concrete input with an empty sightings list. -/
theorem claim_C2_witness :
    ((WhaleData.mk "v1 (Human Sightings)" (some [])).sightings.getD [] = [] ∨
     (VesselData.mk "Mocked AIS Feed"
        (some [⟨"vessel-A", "Ferry", 45.53, -123.985⟩])).vessels.getD [] = []) ∧
    analyzeWith (fun _ _ => 0)
      (WhaleData.mk "v1 (Human Sightings)" (some []))
      (VesselData.mk "Mocked AIS Feed"
        (some [⟨"vessel-A", "Ferry", 45.53, -123.985⟩])) = [] :=
  ⟨Or.inl rfl, claim_C2_empty_input_short_circuit _ _ _ (Or.inl rfl)⟩

/-- C7: the risk events are produced in the iteration order of the cross
product, outer loop over sightings, inner loop over vessels:
`analyze_proximity_risk` equals the nested-loop formulation
`analyze_spec_order` on every pair of inputs. -/
theorem claim_C7_cross_product_order (wd : WhaleData) (vd : VesselData) :
    analyze_proximity_risk wd vd =
      analyze_spec_order calculate_distance wd vd :=
  analyzeWith_eq_spec_order calculate_distance wd vd

/-- C9: a payload missing the `"sightings"` (resp. `"vessels"`) key is
treated as an empty collection — `analyze_proximity_risk` returns `[]` and
does not fail. -/
theorem claim_C9_missing_key_as_empty (wd : WhaleData) (vd : VesselData)
    (h : wd.sightings = none ∨ vd.vessels = none) :
    analyze_proximity_risk wd vd = [] := by
  apply analyzeWith_empty
  rcases h with h | h
  · exact Or.inl (by rw [h]; rfl)
  · exact Or.inr (by rw [h]; rfl)

/-- Witness for C9 at a concrete payload with no `"sightings"` key. -/
theorem claim_C9_witness :
    ((WhaleData.mk "v1 (Human Sightings)" none).sightings = none ∨
     (VesselData.mk "Mocked AIS Feed"
        (some [⟨"vessel-A", "Ferry", 45.53, -123.985⟩])).vessels = none) ∧
    analyze_proximity_risk
      (WhaleData.mk "v1 (Human Sightings)" none)
      (VesselData.mk "Mocked AIS Feed"
        (some [⟨"vessel-A", "Ferry", 45.53, -123.985⟩])) = [] :=
  ⟨Or.inl rfl, claim_C9_missing_key_as_empty _ _ (Or.inl rfl)⟩

/-- C3: with a non-empty risk-event list, every failure of the summarization
collaborator — non-2xx status, transport failure, or malformed reply — yields
a Summary with `risk_level = "Unknown"`; `get_summary_and_action` is a total
function, so no exception reaches the caller. -/
theorem claim_C3_summary_failure_degrades (llm : String → LLMOutcome)
    (risk_events : List RiskEvent) (zone : String)
    (hne : risk_events ≠ [])
    (hfail : (llm (mk_prompt risk_events zone)).is_failure = true) :
    (get_summary_and_action llm risk_events zone).risk_level = "Unknown" := by
  unfold get_summary_and_action
  rw [if_neg (by simpa using hne)]
  cases h : llm (mk_prompt risk_events zone) with
  | ok body => rw [h] at hfail; simp [LLMOutcome.is_failure] at hfail
  | httpStatusError msg => rfl
  | requestError msg => rfl
  | parseError msg => rfl

/-- Witness for C3: one risk event, the collaborator unreachable. -/
theorem claim_C3_witness :
    ([(⟨"vessel-B", "Recreational", "human-1", 77⟩ : RiskEvent)] ≠ [] ∧
     ((fun _ => LLMOutcome.requestError "connection refused")
        (mk_prompt [⟨"vessel-B", "Recreational", "human-1", 77⟩]
          "zone-1")).is_failure = true) ∧
    (get_summary_and_action (fun _ => LLMOutcome.requestError "connection refused")
      [⟨"vessel-B", "Recreational", "human-1", 77⟩] "zone-1").risk_level =
      "Unknown" :=
  ⟨⟨by decide, rfl⟩,
   claim_C3_summary_failure_degrades _ _ _ (by decide) rfl⟩

/-- C4: with an empty risk-event list, `get_summary_and_action` returns the
fixed low-risk Summary for every collaborator `llm` — the result does not
depend on the collaborator, so no outbound call is made. -/
theorem claim_C4_empty_events_low_without_call (llm : String → LLMOutcome)
    (zone : String) :
    (get_summary_and_action llm [] zone).risk_level = "Low" ∧
    get_summary_and_action llm [] zone =
      { summary := "No high-risk proximity events were detected."
        risk_level := "Low"
        recommended_action := "No action required. Continue monitoring." } :=
  ⟨rfl, rfl⟩

/-- C5: `check_risk` resolves both upstream outcomes and then surfaces a
single upstream error whenever at least one fetch failed: a whale-fetch
error is reported whatever the vessel outcome is, and a vessel-fetch error
is reported when the whale fetch succeeded — no provider error is
swallowed into a success. -/
theorem claim_C5_upstream_error_surfaces (biologist_url vessel_url : String)
    (wresp : AgentOutcome WhaleData) (vresp : AgentOutcome VesselData)
    (llm : String → LLMOutcome) (zone : String) (e : HTTPError)
    (h : get_data_from_agent biologist_url wresp = .error e ∨
         ((∃ w, get_data_from_agent biologist_url wresp = .ok w) ∧
          get_data_from_agent vessel_url vresp = .error e)) :
    check_risk biologist_url vessel_url wresp vresp llm zone = .error e := by
  unfold check_risk
  rcases h with h | ⟨⟨w, hw⟩, hv⟩
  · rw [h]
  · rw [hw, hv]

/-- Witness for C5: whale provider times out while the vessel provider
succeeds; the 504 error still dominates the response. -/
theorem claim_C5_witness :
    (get_data_from_agent "http://biologist" (.requestError : AgentOutcome WhaleData) =
        .error ⟨504, "Could not connect to downstream service"⟩ ∨
     ((∃ w, get_data_from_agent "http://biologist"
          (.requestError : AgentOutcome WhaleData) = .ok w) ∧
      get_data_from_agent "http://vessel"
        (AgentOutcome.ok (VesselData.mk "Mocked AIS Feed" (some []))) =
        .error ⟨504, "Could not connect to downstream service"⟩)) ∧
    check_risk "http://biologist" "http://vessel"
      (.requestError : AgentOutcome WhaleData)
      (AgentOutcome.ok (VesselData.mk "Mocked AIS Feed" (some [])))
      (fun _ => LLMOutcome.requestError "down") "zone-1" =
      .error ⟨504, "Could not connect to downstream service"⟩ :=
  ⟨Or.inl rfl,
   claim_C5_upstream_error_surfaces _ _ _ _ _ _ _ (Or.inl rfl)⟩

/-- C6: when both upstream fetches succeed (and the two provider URLs are
configured), `check_risk` completes with a success response and raises no
error, for every payload pair and every summarization outcome. -/
theorem claim_C6_joint_success_completes (biologist_url vessel_url : String)
    (w : WhaleData) (v : VesselData) (llm : String → LLMOutcome)
    (zone : String) (hb : biologist_url ≠ "") (hv : vessel_url ≠ "") :
    ∃ r, check_risk biologist_url vessel_url (.ok w) (.ok v) llm zone =
      .ok r := by
  simp only [check_risk, get_data_from_agent, hb, hv, if_false]
  exact ⟨_, rfl⟩

/-- Witness for C6 at concrete URLs and payloads. -/
theorem claim_C6_witness :
    ("http://biologist" ≠ "" ∧ "http://vessel" ≠ "") ∧
    ∃ r, check_risk "http://biologist" "http://vessel"
      (AgentOutcome.ok (WhaleData.mk "v1 (Human Sightings)" (some [])))
      (AgentOutcome.ok (VesselData.mk "Mocked AIS Feed" (some [])))
      (fun _ => LLMOutcome.requestError "down") "zone-1" = .ok r :=
  ⟨⟨by decide, by decide⟩,
   claim_C6_joint_success_completes _ _ _ _ _ _ (by decide) (by decide)⟩

/-- C10: every success response of `check_risk` has
`data.risk_events_found` equal to the length of `data.risk_events`, and its
`zone` field is the request's zone string unchanged. -/
theorem claim_C10_response_consistency (biologist_url vessel_url : String)
    (wresp : AgentOutcome WhaleData) (vresp : AgentOutcome VesselData)
    (llm : String → LLMOutcome) (zone : String) (r : RiskResponse)
    (h : check_risk biologist_url vessel_url wresp vresp llm zone = .ok r) :
    r.risk_events_found = r.risk_events.length ∧ r.zone = zone := by
  unfold check_risk at h
  cases hw : get_data_from_agent biologist_url wresp with
  | error e => rw [hw] at h; exact absurd h (by simp)
  | ok w =>
    cases hv : get_data_from_agent vessel_url vresp with
    | error e => rw [hw, hv] at h; exact absurd h (by simp)
    | ok v =>
      rw [hw, hv] at h
      injection h with h
      subst h
      exact ⟨rfl, rfl⟩

/-- Witness for C10 at a concrete request whose success response is computed
explicitly. -/
theorem claim_C10_witness :
    check_risk "http://biologist" "http://vessel"
      (AgentOutcome.ok (WhaleData.mk "v1 (Human Sightings)" (some [])))
      (AgentOutcome.ok (VesselData.mk "Mocked AIS Feed" (some [])))
      (fun _ => LLMOutcome.requestError "down") "zone-1" =
      .ok
        { zone := "zone-1"
          ai_summary :=
            { summary := "No high-risk proximity events were detected."
              risk_level := "Low"
              recommended_action := "No action required. Continue monitoring." }
          risk_events_found := 0
          risk_events := []
          raw_whale_data := WhaleData.mk "v1 (Human Sightings)" (some [])
          raw_vessel_data := VesselData.mk "Mocked AIS Feed" (some []) } ∧
    ((0 : ℕ) = ([] : List RiskEvent).length ∧ "zone-1" = "zone-1") :=
  have hck : check_risk "http://biologist" "http://vessel"
      (AgentOutcome.ok (WhaleData.mk "v1 (Human Sightings)" (some [])))
      (AgentOutcome.ok (VesselData.mk "Mocked AIS Feed" (some [])))
      (fun _ => LLMOutcome.requestError "down") "zone-1" =
      .ok
        { zone := "zone-1"
          ai_summary :=
            { summary := "No high-risk proximity events were detected."
              risk_level := "Low"
              recommended_action := "No action required. Continue monitoring." }
          risk_events_found := 0
          risk_events := []
          raw_whale_data := WhaleData.mk "v1 (Human Sightings)" (some [])
          raw_vessel_data := VesselData.mk "Mocked AIS Feed" (some []) } := rfl
  ⟨hck, claim_C10_response_consistency _ _ _ _ _ _ _ hck⟩

/-- C8: the great-circle distance used per pair is symmetric,
`distance(a, b) = distance(b, a)`, and vanishes on the diagonal,
`distance(a, a) = 0`, for every pair of GeoPoints. -/
theorem claim_C8_distance_symm_and_self_zero (a b : GeoPoint) :
    great_circle_meters a b = great_circle_meters b a ∧
    great_circle_meters a a = 0 :=
  ⟨great_circle_meters_symm a b, great_circle_meters_self a⟩

end OrcaGuardian
